import Mathlib

/-!
Verification of the learning-artifacts backend core against its specification.

The development shallowly embeds, in Lean, the three components the
specification calls THE CORE:

* the streaming response decoder and the non-streaming evaluation pipeline
  of `backend/services/claude_service.py` (`evaluate_answer`,
  `evaluate_answer_stream`, `_extract_json_from_response`);
* the retry policy engine of `backend/utils/retry_handler.py`
  (`exponential_backoff_with_jitter`, `should_retry`, `with_retry`);
* the session progression operations of `backend/routers/sessions.py`
  (`submit_answer`, `request_hint`, `update_session`).

Python strings are modelled as `List Char`, Python floats as `ℚ`, JSON
values as the inductive `Json` below.  External effects (the LLM call, the
random jitter draw, the wall clock) are inputs to the embedded functions.
-/

/-! ## JSON values and a model of Python `json.loads` -/

/-- JSON values as produced by Python `json.loads`: objects keep their key
order (association list, duplicate keys resolved last-wins on lookup, as in
a Python dict built by the scanner).  Numbers are modelled as rationals;
the non-finite constants `NaN` and `Infinity` accepted by Python are not
representable and such texts are mapped to a parse failure. -/
inductive Json where
  | null : Json
  | bool : Bool → Json
  | num : ℚ → Json
  | str : List Char → Json
  | arr : List Json → Json
  | obj : List (List Char × Json) → Json

/-- The `{` character, written via its code point. -/
def lbrace : Char := Char.ofNat 123

/-- The `}` character, written via its code point. -/
def rbrace : Char := Char.ofNat 125

/-- JSON inter-token whitespace accepted by Python `json.loads`:
space, tab, line feed, carriage return. -/
def json_ws (c : Char) : Bool :=
  [32, 9, 10, 13].contains c.toNat

/-- Drop leading JSON whitespace. -/
def skipWs : List Char → List Char
  | [] => []
  | c :: rest => if json_ws c then skipWs rest else c :: rest

/-- Value of a hexadecimal digit. -/
def hexVal (c : Char) : Option Nat :=
  if 48 ≤ c.toNat && c.toNat ≤ 57 then some (c.toNat - 48)
  else if 97 ≤ c.toNat && c.toNat ≤ 102 then some (c.toNat - 87)
  else if 65 ≤ c.toNat && c.toNat ≤ 70 then some (c.toNat - 55)
  else none

/-- Read exactly four hex digits. -/
def parseHex4 : List Char → Option (Nat × List Char)
  | a :: b :: c :: d :: rest =>
    match hexVal a, hexVal b, hexVal c, hexVal d with
    | some va, some vb, some vc, some vd =>
      some ((((va * 16 + vb) * 16 + vc) * 16 + vd), rest)
    | _, _, _, _ => none
  | _ => none

/-- Single-character JSON escapes, keyed by the code point of the
character after the backslash: quote, backslash and slash map to
themselves, and b f n r t to backspace, form feed, line feed, carriage
return, tab. -/
def escChar (c : Char) : Option Char :=
  match c.toNat with
  | 34 => some c
  | 92 => some c
  | 47 => some c
  | 98 => some (Char.ofNat 8)
  | 102 => some (Char.ofNat 12)
  | 110 => some (Char.ofNat 10)
  | 114 => some (Char.ofNat 13)
  | 116 => some (Char.ofNat 9)
  | _ => none

/-- Body of a JSON string after the opening quote, in strict mode (raw
control characters rejected, as by `json.loads`).  Surrogate pairs written
with `\u` escapes are combined; a lone surrogate, which Python would keep
as an unpaired code unit, has no `Char` representation and is mapped
through `Char.ofNat` (yielding its fallback). -/
def parseStrBody : Nat → List Char → Option (List Char × List Char)
  | 0, _ => none
  | _, [] => none
  | fuel + 1, c :: rest =>
    if c == '"' then some ([], rest)
    else if c == '\\' then
      match rest with
      | [] => none
      | e :: rest2 =>
        if e == 'u' then
          match parseHex4 rest2 with
          | none => none
          | some (n, rest3) =>
            if 55296 ≤ n && n ≤ 56319 then
              match rest3 with
              | '\\' :: 'u' :: rest4 =>
                match parseHex4 rest4 with
                | some (n2, rest5) =>
                  if 56320 ≤ n2 && n2 ≤ 57343 then
                    match parseStrBody fuel rest5 with
                    | some (tail, r) =>
                      some (Char.ofNat (65536 + (n - 55296) * 1024 + (n2 - 56320)) :: tail, r)
                    | none => none
                  else
                    match parseStrBody fuel rest3 with
                    | some (tail, r) => some (Char.ofNat n :: tail, r)
                    | none => none
                | none =>
                  match parseStrBody fuel rest3 with
                  | some (tail, r) => some (Char.ofNat n :: tail, r)
                  | none => none
              | _ =>
                match parseStrBody fuel rest3 with
                | some (tail, r) => some (Char.ofNat n :: tail, r)
                | none => none
            else
              match parseStrBody fuel rest3 with
              | some (tail, r) => some (Char.ofNat n :: tail, r)
              | none => none
        else
          match escChar e with
          | none => none
          | some ec =>
            match parseStrBody fuel rest2 with
            | some (tail, r) => some (ec :: tail, r)
            | none => none
    else if c.toNat < 32 then none
    else
      match parseStrBody fuel rest with
      | some (tail, r) => some (c :: tail, r)
      | none => none

/-- Decimal digit value. -/
def digitVal (c : Char) : Option Nat :=
  if 48 ≤ c.toNat && c.toNat ≤ 57 then some (c.toNat - 48) else none

/-- Take a maximal run of decimal digits. -/
def takeDigits : List Char → List Nat × List Char
  | [] => ([], [])
  | c :: rest =>
    match digitVal c with
    | some d =>
      match takeDigits rest with
      | (ds, r) => (d :: ds, r)
    | none => ([], c :: rest)

/-- Value of a digit run. -/
def digitsToNat (ds : List Nat) : Nat :=
  ds.foldl (fun a d => a * 10 + d) 0

/-- Model of the JSON number grammar `-?(0|[1-9][0-9]*)(\.[0-9]+)?([eE][+-]?[0-9]+)?`.
A maximal-munch mismatch (leading zeros, a dot or exponent marker without
digits) is mapped to `none`: in Python the shorter regex match leaves a
character that is invalid after a number in every context, so the whole
decode fails there as well. -/
def parseNumber (s : List Char) : Option (ℚ × List Char) :=
  let signed : Bool × List Char :=
    match s with
    | c :: r => if c == '-' then (true, r) else (false, s)
    | [] => (false, s)
  match takeDigits signed.2 with
  | ([], _) => none
  | (d0 :: ds, r1) =>
    if d0 == 0 && !ds.isEmpty then none
    else
      let mag0 : ℚ := (digitsToNat (d0 :: ds) : ℚ)
      let fracStep : Option (ℚ × List Char) :=
        match r1 with
        | c :: rf =>
          if c == '.' then
            match takeDigits rf with
            | ([], _) => none
            | (fds, r2) =>
              some (mag0 + (digitsToNat fds : ℚ) / ((10 : ℚ) ^ fds.length), r2)
          else some (mag0, r1)
        | [] => some (mag0, r1)
      match fracStep with
      | none => none
      | some (mag1, r2) =>
        let expStep : Option (ℚ × List Char) :=
          match r2 with
          | c :: re =>
            if c == 'e' || c == 'E' then
              let se : Bool × List Char :=
                match re with
                | c2 :: r3 =>
                  if c2 == '+' then (false, r3)
                  else if c2 == '-' then (true, r3)
                  else (false, re)
                | [] => (false, re)
              match takeDigits se.2 with
              | ([], _) => none
              | (eds, r4) =>
                let e := digitsToNat eds
                some (if se.1 then mag1 / ((10 : ℚ) ^ e) else mag1 * ((10 : ℚ) ^ e), r4)
            else some (mag1, r2)
          | [] => some (mag1, r2)
        match expStep with
        | none => none
        | some (mag2, r5) => some ((if signed.1 then -mag2 else mag2), r5)

mutual

/-- Parse one JSON value (fuel-indexed; the fuel passed by `json_loads`
strictly dominates every possible recursion depth). -/
def parseVal : Nat → List Char → Option (Json × List Char)
  | 0, _ => none
  | fuel + 1, s =>
    match skipWs s with
    | [] => none
    | c :: rest =>
      if c == lbrace then
        match parseObjBody fuel rest with
        | some (ms, r) => some (Json.obj ms, r)
        | none => none
      else if c == '[' then
        match parseArrBody fuel rest with
        | some (js, r) => some (Json.arr js, r)
        | none => none
      else if c == '"' then
        match parseStrBody (rest.length + 1) rest with
        | some (cs, r) => some (Json.str cs, r)
        | none => none
      else if c == 't' then
        match rest with
        | 'r' :: 'u' :: 'e' :: r => some (Json.bool true, r)
        | _ => none
      else if c == 'f' then
        match rest with
        | 'a' :: 'l' :: 's' :: 'e' :: r => some (Json.bool false, r)
        | _ => none
      else if c == 'n' then
        match rest with
        | 'u' :: 'l' :: 'l' :: r => some (Json.null, r)
        | _ => none
      else
        match parseNumber (c :: rest) with
        | some (q, r) => some (Json.num q, r)
        | none => none

/-- Array elements after the opening bracket. -/
def parseArrBody : Nat → List Char → Option (List Json × List Char)
  | 0, _ => none
  | fuel + 1, s =>
    match skipWs s with
    | [] => none
    | c :: rest =>
      if c == ']' then some ([], rest)
      else
        match parseVal fuel (c :: rest) with
        | none => none
        | some (j, r1) =>
          match parseArrTail fuel r1 with
          | none => none
          | some (js, r2) => some (j :: js, r2)

/-- Array continuation: a comma-separated tail or the closing bracket. -/
def parseArrTail : Nat → List Char → Option (List Json × List Char)
  | 0, _ => none
  | fuel + 1, s =>
    match skipWs s with
    | [] => none
    | c :: rest =>
      if c == ']' then some ([], rest)
      else if c == ',' then
        match parseVal fuel rest with
        | none => none
        | some (j, r1) =>
          match parseArrTail fuel r1 with
          | none => none
          | some (js, r2) => some (j :: js, r2)
      else none

/-- Object members after the opening brace. -/
def parseObjBody : Nat → List Char → Option (List (List Char × Json) × List Char)
  | 0, _ => none
  | fuel + 1, s =>
    match skipWs s with
    | [] => none
    | c :: rest =>
      if c == rbrace then some ([], rest)
      else if c == '"' then
        match parseStrBody (rest.length + 1) rest with
        | none => none
        | some (k, r1) =>
          match skipWs r1 with
          | ':' :: r2 =>
            match parseVal fuel r2 with
            | none => none
            | some (v, r3) =>
              match parseObjTail fuel r3 with
              | none => none
              | some (ms, r4) => some ((k, v) :: ms, r4)
          | _ => none
      else none

/-- Object continuation: a comma then a member, or the closing brace. -/
def parseObjTail : Nat → List Char → Option (List (List Char × Json) × List Char)
  | 0, _ => none
  | fuel + 1, s =>
    match skipWs s with
    | [] => none
    | c :: rest =>
      if c == rbrace then some ([], rest)
      else if c == ',' then
        match skipWs rest with
        | [] => none
        | c2 :: rest2 =>
          if c2 == '"' then
            match parseStrBody (rest2.length + 1) rest2 with
            | none => none
            | some (k, r1) =>
              match skipWs r1 with
              | ':' :: r2 =>
                match parseVal fuel r2 with
                | none => none
                | some (v, r3) =>
                  match parseObjTail fuel r3 with
                  | none => none
                  | some (ms, r4) => some ((k, v) :: ms, r4)
              | _ => none
          else none
      else none

end

/-- Model of Python `json.loads`: decode one value, then require that only
whitespace remains. -/
def json_loads (s : List Char) : Option Json :=
  match parseVal (2 * s.length + 2) s with
  | some (j, rest) => if (skipWs rest).isEmpty then some j else none
  | none => none

/-! ## Model of `_extract_json_from_response` (claude_service.py lines 23-42) -/

/-- Whitespace stripped by Python `str.strip()` (the ASCII subset; the raw
texts considered here are ASCII). -/
def py_space (c : Char) : Bool :=
  [32, 9, 10, 13, 11, 12].contains c.toNat

/-- Model of Python `str.strip()`. -/
def pystrip (s : List Char) : List Char :=
  ((s.dropWhile py_space).reverse.dropWhile py_space).reverse

/-- Three backtick characters, the markdown code-fence opener. -/
def fence : List Char := [Char.ofNat 96, Char.ofNat 96, Char.ofNat 96]

/-- Index of the last occurrence of `c`, like Python `str.rfind`. -/
def rfindIdx (c : Char) (s : List Char) : Option Nat :=
  match s.reverse.findIdx? (· == c) with
  | some i => some (s.length - 1 - i)
  | none => none

/-- Model of `_extract_json_from_response`: strip the text; if it starts
with a code fence, slice from the first `\x7b` to the last `\x7d`
inclusive (Python keeps the stripped text whenever `find` fails or the
slice would be empty or reversed). -/
def extract_json_from_response (raw : List Char) : List Char :=
  let t := pystrip raw
  if fence.isPrefixOf t then
    match t.findIdx? (· == lbrace), rfindIdx rbrace t with
    | some i, some j => if i < j + 1 then (t.drop i).take (j + 1 - i) else t
    | _, _ => t
  else t

/-! ## Validation of a parsed evaluation (claude_service.py) -/

/-- The keys of `required_fields` (lines 393 and 534). -/
def required_fields : List (List Char) :=
  [("assessment".data), ("internal_score".data), ("feedback".data)]

/-- The `valid_assessments` list (lines 398 and 539). -/
def valid_assessments : List (List Char) :=
  [("strong".data), ("developing".data), ("beginning".data)]

/-- Lookup in a parsed JSON object; later duplicates shadow earlier ones,
as in the Python dict `json.loads` builds. -/
def jget : List (List Char × Json) → List Char → Option Json
  | [], _ => none
  | (k, v) :: rest, key =>
    match jget rest key with
    | some r => some r
    | none => if k == key then some v else none

/-- The check `evaluation["assessment"] not in valid_assessments`: a
non-string value is never equal to any entry of the list. -/
def assessment_ok : Json → Bool
  | Json.str s => valid_assessments.contains s
  | _ => false

/-- The check `0 <= evaluation["internal_score"] <= 100`.  A Python bool
is an int (`True = 1`, `False = 0`), so both pass; any other non-numeric
value raises `TypeError`, which the surrounding handler turns into the
same failure outcome as a failed validation. -/
def score_ok : Json → Bool
  | Json.num q => decide ((0 : ℚ) ≤ q) && decide (q ≤ (100 : ℚ))
  | Json.bool _ => true
  | _ => false

/-- Validation block of `evaluate_answer` (lines 392-407): required fields
present, assessment in `valid_assessments`, score in range.  A non-dict
top-level value cannot pass: Python's `field in evaluation` /
`evaluation["assessment"]` either yields no dict lookup or raises
`TypeError`, and every such path ends in the function's failure branch. -/
def validate_evaluation (j : Json) : Bool :=
  match j with
  | Json.obj fields =>
    required_fields.all (fun k => (jget fields k).isSome) &&
    (match jget fields ("assessment".data) with
     | some a => assessment_ok a
     | none => false) &&
    (match jget fields ("internal_score".data) with
     | some v => score_ok v
     | none => false)
  | _ => false

/-- The same validation block as it appears a second time inside
`evaluate_answer_stream` (lines 533-547). -/
def validate_evaluation_streamed (j : Json) : Bool :=
  match j with
  | Json.obj fields =>
    required_fields.all (fun k => (jget fields k).isSome) &&
    (match jget fields ("assessment".data) with
     | some a => assessment_ok a
     | none => false) &&
    (match jget fields ("internal_score".data) with
     | some v => score_ok v
     | none => false)
  | _ => false

/-! ## Non-streaming evaluation (claude_service.py lines 383-413)

The provider call is external; the model takes the raw response text and
returns `some evaluation` where the Python function returns the validated
dict, `none` where it raises. -/

/-- From raw response text to the returned evaluation dict of
`evaluate_answer`: extract, `json.loads`, validate. -/
def evaluate_answer_model (raw : List Char) : Option Json :=
  match json_loads (extract_json_from_response raw) with
  | none => none
  | some ev => if validate_evaluation ev then some ev else none

/-! ## Streaming decoder (claude_service.py lines 485-557) -/

/-- The mutable scanning variables of `evaluate_answer_stream`
(`feedback_buffer`, `inside_feedback`, `escape_next`). -/
structure DecState where
  feedback_buffer : List Char
  inside_feedback : Bool
  escape_next : Bool

/-- Initial decoder state (lines 486-488). -/
def initDecState : DecState := ⟨[], false, false⟩

/-- The quoted key the scanner watches for (the literal `"feedback"`). -/
def feedback_key_marker : List Char := ("\"feedback\"".data)

/-- The buffer suffix that opens the value (the literal `": "` followed by
a quote: quote, colon, space, quote). -/
def value_open_marker : List Char := ("\": \"".data)

/-- Substring containment, the Python `in` operator on strings: the
pattern is a prefix of some suffix of the text. -/
def containsSeq (pat : List Char) : List Char → Bool
  | [] => pat.isEmpty
  | c :: rest => pat.isPrefixOf (c :: rest) || containsSeq pat rest

/-- One character of the incremental scan (lines 498-525), returning the
new state and the optionally emitted content character. -/
def decodeStep (st : DecState) (ch : Char) : DecState × Option Char :=
  if !st.inside_feedback then
    let buf := st.feedback_buffer ++ [ch]
    if containsSeq feedback_key_marker buf && ch == '"' &&
        value_open_marker.isSuffixOf buf then
      ({ feedback_buffer := [], inside_feedback := true,
         escape_next := st.escape_next }, none)
    else
      ({ st with feedback_buffer := buf }, none)
  else if st.escape_next then
    ({ st with escape_next := false }, some ch)
  else if ch == '\\' then
    ({ st with escape_next := true }, none)
  else if ch == '"' then
    ({ feedback_buffer := [], inside_feedback := false,
       escape_next := st.escape_next }, none)
  else (st, some ch)

/-- Run the scanner over the characters of one delta chunk. -/
def decodeChars : DecState → List Char → DecState × List Char
  | st, [] => (st, [])
  | st, c :: rest =>
    let p := decodeStep st c
    let q := decodeChars p.1 rest
    (q.1, p.2.toList ++ q.2)

/-- Run the scanner over the stream of delta chunks, threading the state
across chunk boundaries as the Python loop does. -/
def decodeChunks : DecState → List (List Char) → DecState × List Char
  | st, [] => (st, [])
  | st, chunk :: rest =>
    let p := decodeChars st chunk
    let q := decodeChunks p.1 rest
    (q.1, p.2 ++ q.2)

/-- One Server-Sent Event of the streaming evaluation, with the cosmetic
JSON framing of `data: ...` left out: a `content` event carries one
feedback character, the `complete` event carries the validated evaluation
object, an `error` event any failure. -/
inductive SSEEvent where
  | content : Char → SSEEvent
  | complete : Json → SSEEvent
  | error : SSEEvent

/-- End-of-stream processing of `evaluate_answer_stream` (lines 527-557):
extract and parse the accumulated text, validate, and emit either the
`complete` event or an `error` event. -/
def stream_end_event (raw : List Char) : SSEEvent :=
  match json_loads (extract_json_from_response raw) with
  | none => SSEEvent.error
  | some ev =>
    if validate_evaluation_streamed ev then SSEEvent.complete ev
    else SSEEvent.error

/-- The full event sequence `evaluate_answer_stream` yields for a given
sequence of provider delta chunks: the content events of the incremental
scan, then the single end-of-stream event. -/
def evaluate_answer_stream_model (chunks : List (List Char)) : List SSEEvent :=
  ((decodeChunks initDecState chunks).2.map SSEEvent.content) ++
    [stream_end_event chunks.flatten]

/-- The content characters of an event list. -/
def contentChars : List SSEEvent → List Char
  | [] => []
  | SSEEvent.content c :: rest => c :: contentChars rest
  | _ :: rest => contentChars rest

/-! ## Retry policy engine (utils/retry_handler.py)

The random draw `random.uniform(0.5, 1.0)` is an input; the wrapper model
takes the per-attempt jitter draws as a stream. -/

/-- Model of `exponential_backoff_with_jitter` (lines 27-47): the capped
exponential delay scaled by the jitter draw `u`.  Every call site passes
the 1-indexed loop attempt, so `attempt - 1` never underflows. -/
def exponential_backoff_with_jitter (attempt : Nat) (base_delay max_delay u : ℚ) : ℚ :=
  min (base_delay * 2 ^ (attempt - 1)) max_delay * u

/-- The set `RetryConstants.RETRYABLE_STATUS_CODES` (config/constants.py). -/
def RETRYABLE_STATUS_CODES : List Nat := [429, 500, 502, 503, 504]

/-- One outcome of the wrapped external call: a success value or one of
the exception classes the handler distinguishes (`RateLimitError` with an
optional `retry_after` attribute, `APIStatusError` with its code,
`APITimeoutError`, other `APIError`, and any non-retryable exception). -/
inductive CallOutcome where
  | success : Nat → CallOutcome
  | rateLimit : Option ℚ → CallOutcome
  | statusError : Nat → CallOutcome
  | timedOut : CallOutcome
  | apiError : CallOutcome
  | nonRetryable : CallOutcome
  deriving DecidableEq

/-- Model of `should_retry` (lines 50-120).  The Python truthiness test
`if retry_after:` treats an absent hint and a hint of `0` alike, falling
back to jittered backoff with base delay 2.0; a nonzero hint is returned
verbatim. -/
def should_retry (e : CallOutcome) (attempt max_retries : Nat) (u : ℚ) : Bool × ℚ :=
  if max_retries < attempt then (false, 0)
  else
    match e with
    | CallOutcome.rateLimit (some r) =>
      if r = 0 then (true, exponential_backoff_with_jitter attempt 2 60 u)
      else (true, r)
    | CallOutcome.rateLimit none =>
      (true, exponential_backoff_with_jitter attempt 2 60 u)
    | CallOutcome.statusError code =>
      if RETRYABLE_STATUS_CODES.contains code then
        (true, exponential_backoff_with_jitter attempt 1 60 u)
      else (false, 0)
    | CallOutcome.timedOut =>
      (true, exponential_backoff_with_jitter attempt 2 60 u)
    | CallOutcome.apiError =>
      (true, exponential_backoff_with_jitter attempt 1 60 u)
    | _ => (false, 0)

/-- Result of running the wrapped call under the retry loop: the returned
value or the raised exception, together with the number of calls made and
the sleeps performed, in order. -/
inductive RetryResult where
  | ok : Nat → Nat → List ℚ → RetryResult
  | err : CallOutcome → Nat → List ℚ → RetryResult
  deriving DecidableEq

/-- The retry loop of `async_wrapper` / `sync_wrapper` (lines 154-217 and
224-287; the two share this loop verbatim).  `calls n` is the outcome of
the n-th call (1-indexed), `jitter n` the draw used if that attempt needs
computed backoff.  The fuel counts loop iterations: started at
`max_retries + 1` it can never run out, because `should_retry` refuses as
soon as `attempt > max_retries`; the fuel-0 case models the re-raise of
`last_exception` after the loop, which is dead code. -/
def retry_from (calls : Nat → CallOutcome) (jitter : Nat → ℚ) (max_retries : Nat) :
    Nat → Nat → List ℚ → Option CallOutcome → RetryResult
  | 0, attempt, waits, last =>
    RetryResult.err (last.getD CallOutcome.nonRetryable) (attempt - 1) waits
  | fuel + 1, attempt, waits, _ =>
    match calls attempt with
    | CallOutcome.success v => RetryResult.ok v attempt waits
    | e =>
      match should_retry e attempt max_retries (jitter attempt) with
      | (true, delay) =>
        retry_from calls jitter max_retries fuel (attempt + 1)
          (waits ++ [delay]) (some e)
      | (false, _) => RetryResult.err e attempt waits

/-- Model of a call wrapped by `with_retry(max_retries)`: run the loop
from attempt 1. -/
def run_with_retry (max_retries : Nat) (calls : Nat → CallOutcome)
    (jitter : Nat → ℚ) : RetryResult :=
  retry_from calls jitter max_retries (max_retries + 1) 1 [] none

/-! ## Session progression state machine (routers/sessions.py) -/

/-- The constant `ExerciseConstants.MAX_HINTS` (config/constants.py). -/
def MAX_HINTS : Nat := 3

/-- Session status values. -/
inductive SessionStatus where
  | in_progress : SessionStatus
  | completed : SessionStatus
  deriving DecidableEq

/-- One stored attempt record, as built by `submit_answer` (lines
441-451).  The evaluation fields hold the JSON values taken from the
evaluation dict; `created_at` is the timestamp argument. -/
structure Attempt where
  exercise_index : Nat
  attempt_number : Nat
  answer_text : List Char
  time_spent_seconds : Nat
  hints_used : Nat
  assessment : Json
  internal_score : Json
  feedback : Json
  created_at : Nat

/-- An exercise as the session routes see it: only its hint list matters
to them.  `hints = none` models a dict without the `"hints"` key, which
`exercise.get("hints", [])` reads as the empty list. -/
structure Exercise where
  hints : Option (List (List Char))

/-- The row `submit_answer` and `request_hint` load: the session joined
with its module's exercise list. -/
structure SessionRow where
  current_exercise_index : Nat
  attempts : List Attempt
  status : SessionStatus
  exercises : List Exercise

/-- The submit request body as `models/schemas.py` lines 156-161 declare
it: `answer_text`, `time_spent_seconds` and `hints_used`.  The schema
declares NO `exercise_index` field, although sessions.py line 415 reads
one — see `answer_submit_request_fields` and `submit_answer`. -/
structure AnswerSubmitRequest where
  answer_text : List Char
  time_spent_seconds : Nat
  hints_used : Nat

/-- The field names `AnswerSubmitRequest` declares (models/schemas.py
lines 156-161).  Reading any other attribute of the pydantic request
model raises `AttributeError`. -/
def answer_submit_request_fields : List (List Char) :=
  [("answer_text".data), ("time_spent_seconds".data), ("hints_used".data)]

/-- The parameters of `evaluate_answer` (claude_service.py line 330):
`exercise` and `answer_text` only. -/
def evaluate_answer_params : List (List Char) :=
  [("exercise".data), ("answer_text".data)]

/-- The keyword arguments the router passes to `evaluate_answer`
(sessions.py lines 434-438): `exercise`, `answer_text` and `hints_used`. -/
def submit_evaluate_call_kwargs : List (List Char) :=
  [("exercise".data), ("answer_text".data), ("hints_used".data)]

/-- Python keyword binding: a call is accepted only when every keyword
names a declared parameter; an undeclared keyword raises
`TypeError: unexpected keyword argument`. -/
def kwargs_accepted (params kwargs : List (List Char)) : Bool :=
  kwargs.all (fun k => params.contains k)

/-- The dict the success path of `submit_answer` would return (lines
468-474).  No execution reaches that path — see `submit_answer` — so the
`ok` outcome below is never produced; the type records its shape so that
unreachability can be stated. -/
structure SubmitResponseM where
  assessment : Json
  internal_score : Json
  feedback : Json
  attempt_number : Nat
  hint_available : Bool

/-- Outcome of a submit call: an HTTP rejection raised by a guard, the
generic 500 failure of the `except Exception` handler (lines 496-510,
no write), or the success shape of lines 440-474, which no execution
reaches. -/
inductive SubmitOutcome where
  | rejected : Nat → List Char → SubmitOutcome
  | failed : SubmitOutcome
  | ok : SubmitResponseM → List Attempt → SubmitOutcome

set_option linter.unusedVariables false in
/-- Model of `submit_answer` (sessions.py lines 387-510).  After the
completed-session guard (lines 408-412), line 415 evaluates
`request.exercise_index`; the request model declares no such field
(`answer_submit_request_fields`), so the read raises `AttributeError`,
which the `except Exception` handler at lines 496-510 maps to a 500
with no database write.  Everything from line 416 on — the invalid-index
rejection, the attempt count, the `evaluate_answer` call, the append
and the UPDATE — is unreachable.  Were line 415 repaired, the
`evaluate_answer` call at lines 434-438 would raise `TypeError` next,
since it passes the keyword `hints_used` that `evaluate_answer`
(claude_service.py line 330) does not declare — the binding check
`kwargs_accepted evaluate_answer_params submit_evaluate_call_kwargs`
is false — again before any write.  The request and clock parameters are
the route's inputs; the failure path reads neither. -/
def submit_answer (s : SessionRow) (req : AnswerSubmitRequest) (now : Nat) :
    SubmitOutcome :=
  if s.status = SessionStatus.completed then
    SubmitOutcome.rejected 400 ("Cannot submit answer for completed session".data)
  else
    SubmitOutcome.failed

/-- The attempts array stored after a submit call: only the success path
runs the UPDATE; rejections and failures leave the row untouched. -/
def attemptsAfter (s : SessionRow) (o : SubmitOutcome) : List Attempt :=
  match o with
  | SubmitOutcome.ok _ newAttempts => newAttempts
  | _ => s.attempts

/-- One submission of a linear history: its request body and its
timestamp. -/
structure SubmissionInput where
  req : AnswerSubmitRequest
  now : Nat

/-- A linear (non-concurrent) history: submissions processed one after the
other, each seeing the attempts array the previous one left stored. -/
def run_history (s : SessionRow) : List SubmissionInput → List SubmitOutcome × SessionRow
  | [] => ([], s)
  | x :: rest =>
    let o := submit_answer s x.req x.now
    let q := run_history { s with attempts := attemptsAfter s o } rest
    (o :: q.1, q.2)

/-- The dict `request_hint` returns (lines 815-819). -/
structure HintResponseM where
  hint_level : Nat
  hint_text : List Char
  hints_remaining : Nat
  deriving DecidableEq

/-- Outcome of a hint request: an HTTP rejection, a 500 failure (hint
generation raised, or the stored hint list is too short even after the
append), or success carrying the response and the module's exercise list
as persisted. -/
inductive HintOutcome where
  | rejected : Nat → List Char → HintOutcome
  | failed : HintOutcome
  | ok : HintResponseM → List Exercise → HintOutcome

/-- Tail of `request_hint` after the level is fixed (lines 779-819): fetch
the exercise's hint list; if it is shorter than the level, generate one
hint (`genHint` is the external call: `none` when it raises), append it
and persist the module's exercises; answer with the hint at
`hint_level - 1` and `MAX_HINTS - hint_level` hints remaining.  An
out-of-range read raises `IndexError`, caught as a 500. -/
def hint_proceed (s : SessionRow) (lv : Nat) (genHint : Option (List Char)) :
    HintOutcome :=
  let ex := (s.exercises.get? s.current_exercise_index).getD ⟨none⟩
  let hints := ex.hints.getD []
  if hints.length < lv then
    match genHint with
    | none => HintOutcome.failed
    | some h =>
      let hints2 := hints ++ [h]
      let exercises2 :=
        s.exercises.set s.current_exercise_index { ex with hints := some hints2 }
      match hints2.get? (lv - 1) with
      | some t => HintOutcome.ok ⟨lv, t, MAX_HINTS - lv⟩ exercises2
      | none => HintOutcome.failed
  else
    match hints.get? (lv - 1) with
    | some t => HintOutcome.ok ⟨lv, t, MAX_HINTS - lv⟩ s.exercises
    | none => HintOutcome.failed

/-- Model of `request_hint` (lines 711-819).  The hint level is the
explicit `request.hint_level` when given (validated against 1..MAX_HINTS),
else `1 + max(hints_used over the attempts at the current exercise)`,
rejected past MAX_HINTS. -/
def request_hint (s : SessionRow) (req_level : Option Nat)
    (genHint : Option (List Char)) : HintOutcome :=
  if s.status = SessionStatus.completed then
    HintOutcome.rejected 400 ("Cannot request hint for completed session".data)
  else if s.exercises.length ≤ s.current_exercise_index then
    HintOutcome.rejected 400 ("All exercises completed".data)
  else
    let exercise_attempts :=
      s.attempts.filter (fun a => a.exercise_index == s.current_exercise_index)
    match req_level with
    | some lv =>
      if 1 ≤ lv ∧ lv ≤ MAX_HINTS then hint_proceed s lv genHint
      else HintOutcome.rejected 400 ("Hint level must be between 1 and 3".data)
    | none =>
      let max_hints_used :=
        if exercise_attempts.isEmpty then 0
        else (exercise_attempts.map (fun a => a.hints_used)).foldl Nat.max 0
      if MAX_HINTS < max_hints_used + 1 then
        HintOutcome.rejected 400 ("All hints have been used for this exercise".data)
      else hint_proceed s (max_hints_used + 1) genHint

/-- The hint level `request_hint` computes when the request omits
`hint_level` (lines 766-771): 1 + the maximum `hints_used` over the
attempts at the current exercise, which is 1 when there are none. -/
def resolved_hint_level (s : SessionRow) : Nat :=
  let exercise_attempts :=
    s.attempts.filter (fun a => a.exercise_index == s.current_exercise_index)
  (if exercise_attempts.isEmpty then 0
   else (exercise_attempts.map (fun a => a.hints_used)).foldl Nat.max 0) + 1

/-- The session row `update_session` reads and writes (confidence rating
and completion timestamp included). -/
structure SessionFull where
  current_exercise_index : Nat
  attempts : List Attempt
  status : SessionStatus
  confidence_rating : Option Nat
  completed_at : Option Nat

/-- The PATCH body: any subset of the three allowed fields. -/
structure SessionUpdateRequest where
  current_exercise_index : Option Nat
  status : Option SessionStatus
  confidence_rating : Option Nat

/-- Outcome of `update_session`. -/
inductive UpdateOutcome where
  | rejected : Nat → List Char → UpdateOutcome
  | ok : SessionFull → UpdateOutcome

/-- Model of `update_session` (lines 271-332): every provided field is
written as given, with no check of the current status; `completed_at` is
set to the clock only when the provided status is `completed`.  With no
field provided the request is rejected. -/
def update_session (s : SessionFull) (req : SessionUpdateRequest) (now : Nat) :
    UpdateOutcome :=
  if req.current_exercise_index.isNone && req.status.isNone &&
      req.confidence_rating.isNone then
    UpdateOutcome.rejected 400 ("No fields provided for update".data)
  else
    let s1 :=
      match req.current_exercise_index with
      | some v => { s with current_exercise_index := v }
      | none => s
    let s2 :=
      match req.status with
      | some st =>
        { s1 with
          status := st
          completed_at :=
            if st = SessionStatus.completed then some now else s1.completed_at }
      | none => s1
    let s3 :=
      match req.confidence_rating with
      | some v => { s2 with confidence_rating := some v }
      | none => s2
    UpdateOutcome.ok s3

/-! ## Concrete texts and inputs used by the scenario claims -/

/-- The raw provider text of the streaming scenario, exactly as the
specification writes it (no space after any colon). -/
def raw_compact : List Char :=
  ("\x7b\"assessment\":\"strong\",\"internal_score\":85,\"feedback\":\"Great job!\"\x7d".data)

/-- The same evaluation with the single space after the `"feedback":` key
that the scanner's `": "` marker requires. -/
def raw_spaced : List Char :=
  ("\x7b\"assessment\":\"strong\",\"internal_score\":85,\"feedback\": \"Great job!\"\x7d".data)

/-- The evaluation object both texts parse to. -/
def eval85 : Json :=
  Json.obj [(("assessment".data), Json.str ("strong".data)),
            (("internal_score".data), Json.num 85),
            (("feedback".data), Json.str ("Great job!".data))]

/-- A raw provider text whose assessment is `needs_support`, the value
the data model (`models/schemas.py`, enum `Assessment`) declares. -/
def raw_needs_support : List Char :=
  ("\x7b\"assessment\":\"needs_support\",\"internal_score\":40,\"feedback\":\"Keep going.\"\x7d".data)

/-- A raw provider text whose assessment is `beginning`, the value the
service prompt instructs the model to produce. -/
def raw_beginning : List Char :=
  ("\x7b\"assessment\":\"beginning\",\"internal_score\":40,\"feedback\":\"Keep going.\"\x7d".data)

/-- The evaluation object `raw_beginning` parses to. -/
def eval_beginning : Json :=
  Json.obj [(("assessment".data), Json.str ("beginning".data)),
            (("internal_score".data), Json.num 40),
            (("feedback".data), Json.str ("Keep going.".data))]

/-- The assessment values of the `Assessment` enum in
`models/schemas.py` (the declared data model, also produced by
`services/mock_data.py`). -/
def schema_assessment_values : List (List Char) :=
  [("strong".data), ("developing".data), ("needs_support".data)]

/-- Call outcomes of the retry scenario: rate-limit failures hinting 30
seconds on the first two calls, success on the third. -/
def calls_hint30 (v : Nat) : Nat → CallOutcome
  | 1 => CallOutcome.rateLimit (some 30)
  | 2 => CallOutcome.rateLimit (some 30)
  | _ => CallOutcome.success v

/-- Call outcomes with an explicit retry-after hint of 0 seconds on the
first call and success on the second. -/
def calls_hint0 (v : Nat) : Nat → CallOutcome
  | 1 => CallOutcome.rateLimit (some 0)
  | _ => CallOutcome.success v

/-! ## Decoder lemmas -/

/-- The scan distributes over concatenation: running it over `a ++ b`
threads the state from `a` into `b` and concatenates the emissions. -/
theorem decodeChars_append (a : List Char) : ∀ (st : DecState) (b : List Char),
    decodeChars st (a ++ b) =
      ((decodeChars (decodeChars st a).1 b).1,
       (decodeChars st a).2 ++ (decodeChars (decodeChars st a).1 b).2) := by
  induction a with
  | nil => intro st b; simp [decodeChars]
  | cons c rest ih => intro st b; simp [decodeChars, ih, List.append_assoc]

/-- Chunk boundaries are invisible to the scan: processing a chunk list
equals processing its concatenation.  This is the formal content of
"in any token split". -/
theorem decodeChunks_eq_flatten (chunks : List (List Char)) : ∀ st : DecState,
    decodeChunks st chunks = decodeChars st chunks.flatten := by
  induction chunks with
  | nil => intro st; simp [decodeChunks, decodeChars]
  | cons chunk rest ih =>
    intro st
    simp [decodeChunks, List.flatten_cons, decodeChars_append, ih]

/-! ## Claim C1 -/

set_option maxRecDepth 40000 in
/-- C1 (as stated by the claim, refuted): for the spec's exact raw text
`\x7b"assessment":"strong","internal_score":85,"feedback":"Great job!"\x7d`,
delivered as a single token, the decoder emits NO content characters at
all — the scanner's marker requires a space between the colon and the
opening quote of the value, which this text lacks — while still emitting
the single correct complete event. -/
theorem C1_counterexample :
    contentChars (evaluate_answer_stream_model [raw_compact]) ≠ ("Great job!".data) ∧
    evaluate_answer_stream_model [raw_compact] = [SSEEvent.complete eval85] :=
  ⟨by decide, by rfl⟩

set_option maxRecDepth 40000 in
/-- C1 (amended): in any token split, the raw text of the claim yields no
content events followed by exactly one complete event with
assessment="strong", internal_score=85, feedback="Great job!"; with the
variant text carrying the space the scanner's marker `": "` requires, the
content events emit exactly `G,r,e,a,t, ,j,o,b,!` in order, followed by
the same single complete event. -/
theorem C1_stream_scenario (chunksC chunksS : List (List Char))
    (hC : chunksC.flatten = raw_compact)
    (hS : chunksS.flatten = raw_spaced) :
    evaluate_answer_stream_model chunksC = [SSEEvent.complete eval85] ∧
    evaluate_answer_stream_model chunksS =
      (("Great job!".data).map SSEEvent.content) ++ [SSEEvent.complete eval85] := by
  unfold evaluate_answer_stream_model
  rw [decodeChunks_eq_flatten, hC, decodeChunks_eq_flatten, hS]
  exact ⟨rfl, rfl⟩

set_option maxRecDepth 40000 in
/-- Witness for C1: token-by-token splits of both texts. -/
theorem C1_stream_scenario_witness :
    ((raw_compact.map (fun c => [c])).flatten = raw_compact ∧
     (raw_spaced.map (fun c => [c])).flatten = raw_spaced) ∧
    (evaluate_answer_stream_model (raw_compact.map (fun c => [c])) =
        [SSEEvent.complete eval85] ∧
     evaluate_answer_stream_model (raw_spaced.map (fun c => [c])) =
        (("Great job!".data).map SSEEvent.content) ++ [SSEEvent.complete eval85]) :=
  ⟨⟨by decide, by decide⟩,
   C1_stream_scenario (raw_compact.map (fun c => [c]))
     (raw_spaced.map (fun c => [c])) (by decide) (by decide)⟩

/-! ## Claim C2 -/

/-- C2: for every raw provider output, the streaming decoder's
end-of-stream result and the non-streaming evaluation agree exactly — the
stream completes with evaluation `ev` iff the non-streaming call returns
`ev`, and it errors iff the non-streaming call raises; in particular both
paths accept the same set of raw outputs. -/
theorem C2_stream_refines_nonstream (raw : List Char) (ev : Json) :
    (stream_end_event raw = SSEEvent.complete ev ↔
      evaluate_answer_model raw = some ev) ∧
    (stream_end_event raw = SSEEvent.error ↔
      evaluate_answer_model raw = none) := by
  unfold stream_end_event evaluate_answer_model
  have hvv : validate_evaluation_streamed = validate_evaluation := rfl
  rw [hvv]
  cases json_loads (extract_json_from_response raw) with
  | none => simp
  | some j =>
    by_cases hv : validate_evaluation j
    · simp [hv]
    · simp [hv]

/-! ## Claim C7 -/

/-- C7: the end-of-stream validation accepts assessment values from the
list `["strong", "developing", "beginning"]` of `claude_service.py`, not
from the `Assessment` enum `\x7bstrong, developing, needs_support\x7d` the
data model (`models/schemas.py`) and the claim declare: a schema-valid
`needs_support` evaluation is turned into an error event, while a
`beginning` evaluation — which the schema enum cannot represent — is
emitted as a complete event. -/
theorem C7_assessment_enum_mismatch :
    stream_end_event raw_needs_support = SSEEvent.error ∧
    stream_end_event raw_beginning = SSEEvent.complete eval_beginning ∧
    schema_assessment_values.contains ("needs_support".data) = true ∧
    schema_assessment_values.contains ("beginning".data) = false ∧
    valid_assessments.contains ("needs_support".data) = false ∧
    valid_assessments.contains ("beginning".data) = true :=
  ⟨by rfl, by rfl, by decide, by decide, by decide, by decide⟩

/-! ## Submit-answer lemmas -/

/-- Every submit call on an in-progress session fails with the generic
500: the completed guard passes and line 415's attribute read raises,
so the handler at lines 496-510 answers before any computation or
write. -/
theorem submit_answer_in_progress_failed (s : SessionRow)
    (req : AnswerSubmitRequest) (now : Nat)
    (hs : s.status = SessionStatus.in_progress) :
    submit_answer s req now = SubmitOutcome.failed := by
  unfold submit_answer
  rw [if_neg (by rw [hs]; intro hc; cases hc)]

/-- A linear history on an in-progress session is a run of failures that
returns the session unchanged. -/
theorem run_history_all_failed :
    ∀ (subs : List SubmissionInput) (s : SessionRow),
      s.status = SessionStatus.in_progress →
      run_history s subs =
        (List.replicate subs.length SubmitOutcome.failed, s) := by
  intro subs
  induction subs with
  | nil => intro s hs; rfl
  | cons x rest ih =>
    intro s hs
    have hfail : submit_answer s x.req x.now = SubmitOutcome.failed :=
      submit_answer_in_progress_failed s x.req x.now hs
    have htail := ih ({ s with attempts := s.attempts } : SessionRow) hs
    simp only [run_history, hfail, attemptsAfter, List.replicate, List.length_cons]
    rw [htail]

/-! ## Claim C8 -/

/-- C8: a submit call on a completed session is rejected with the
business-rule error and leaves the stored attempts array unchanged — no
Attempt record is created. -/
theorem C8_completed_submit_rejected (s : SessionRow) (req : AnswerSubmitRequest)
    (now : Nat)
    (h : s.status = SessionStatus.completed) :
    submit_answer s req now =
      SubmitOutcome.rejected 400 ("Cannot submit answer for completed session".data) ∧
    attemptsAfter s (submit_answer s req now) = s.attempts := by
  unfold submit_answer
  rw [if_pos h]
  exact ⟨rfl, rfl⟩

/-- Witness for C8: a concrete completed session. -/
theorem C8_completed_submit_rejected_witness :
    ((⟨0, [], SessionStatus.completed, [⟨none⟩]⟩ : SessionRow).status =
      SessionStatus.completed) ∧
    (submit_answer (⟨0, [], SessionStatus.completed, [⟨none⟩]⟩ : SessionRow)
        (⟨("An answer long enough".data), 60, 0⟩ : AnswerSubmitRequest) 17 =
      SubmitOutcome.rejected 400
        ("Cannot submit answer for completed session".data) ∧
     attemptsAfter (⟨0, [], SessionStatus.completed, [⟨none⟩]⟩ : SessionRow)
        (submit_answer (⟨0, [], SessionStatus.completed, [⟨none⟩]⟩ : SessionRow)
          (⟨("An answer long enough".data), 60, 0⟩ : AnswerSubmitRequest)
          17) = []) :=
  ⟨rfl,
   C8_completed_submit_rejected
     (⟨0, [], SessionStatus.completed, [⟨none⟩]⟩ : SessionRow)
     (⟨("An answer long enough".data), 60, 0⟩ : AnswerSubmitRequest)
     17 rfl⟩

/-! ## Claim C3 -/

/-- C3 (the claim is right, the code cannot do it): the success path of
`submit_answer` is dead.  `AnswerSubmitRequest` declares no
`exercise_index`, so line 415 raises `AttributeError` on every request
that passes the completed guard, and the `evaluate_answer` call at
lines 434-438 passes the undeclared keyword `hints_used` and would
raise `TypeError`.  Hence every submit on an in-progress session ends
in the generic 500 with the attempts array unchanged: no Attempt is
ever appended and no evaluation response is ever returned — contrary to
the claim and to the repository's own test
`test_submit_answer_creates_attempt_record`. -/
theorem C3_submit_success_unreachable :
    answer_submit_request_fields.contains ("exercise_index".data) = false ∧
    kwargs_accepted evaluate_answer_params submit_evaluate_call_kwargs = false ∧
    (∀ (s : SessionRow) (req : AnswerSubmitRequest) (now : Nat),
       s.status = SessionStatus.in_progress →
       submit_answer s req now = SubmitOutcome.failed ∧
       attemptsAfter s (submit_answer s req now) = s.attempts ∧
       ∀ (resp : SubmitResponseM) (na : List Attempt),
         submit_answer s req now ≠ SubmitOutcome.ok resp na) := by
  refine ⟨by decide, by decide, ?_⟩
  intro s req now hs
  have hfail := submit_answer_in_progress_failed s req now hs
  refine ⟨hfail, by rw [hfail]; rfl, ?_⟩
  intro resp na hcontra
  rw [hfail] at hcontra
  exact SubmitOutcome.noConfusion hcontra

/-- Witness for C3: the concrete submission of the repository's own
submit test, on a fresh in-progress session. -/
theorem C3_submit_success_unreachable_witness :
    ((⟨0, [], SessionStatus.in_progress, [⟨none⟩]⟩ : SessionRow).status =
       SessionStatus.in_progress) ∧
    (submit_answer (⟨0, [], SessionStatus.in_progress, [⟨none⟩]⟩ : SessionRow)
        (⟨("Python is a programming language".data), 120, 0⟩ :
          AnswerSubmitRequest) 99 = SubmitOutcome.failed ∧
     attemptsAfter (⟨0, [], SessionStatus.in_progress, [⟨none⟩]⟩ : SessionRow)
       (submit_answer (⟨0, [], SessionStatus.in_progress, [⟨none⟩]⟩ : SessionRow)
         (⟨("Python is a programming language".data), 120, 0⟩ :
           AnswerSubmitRequest) 99) = [] ∧
     ∀ (resp : SubmitResponseM) (na : List Attempt),
       submit_answer (⟨0, [], SessionStatus.in_progress, [⟨none⟩]⟩ : SessionRow)
         (⟨("Python is a programming language".data), 120, 0⟩ :
           AnswerSubmitRequest) 99 ≠ SubmitOutcome.ok resp na) :=
  ⟨rfl,
   C3_submit_success_unreachable.2.2
     (⟨0, [], SessionStatus.in_progress, [⟨none⟩]⟩ : SessionRow)
     (⟨("Python is a programming language".data), 120, 0⟩ :
       AnswerSubmitRequest) 99 rfl⟩

/-! ## Claim C4 -/

/-- C4 (the claim is right, the code cannot do it): along every linear
history of submissions to an in-progress session, every submission ends
in the generic 500 failure — line 415's `AttributeError`, with lines
434-438's `TypeError` behind it — so the stored attempts array never
grows and no submission is ever assigned an attempt_number, let alone
the n-th getting n; the repository's own test
`test_multiple_answer_submissions_increment_attempts` expects 1, 2, 3. -/
theorem C4_no_attempt_numbering (s : SessionRow) (subs : List SubmissionInput)
    (hs : s.status = SessionStatus.in_progress) :
    (run_history s subs).2.attempts = s.attempts ∧
    (∀ k, k < subs.length →
       (run_history s subs).1[k]? = some SubmitOutcome.failed) ∧
    (∀ (k : Nat) (resp : SubmitResponseM) (na : List Attempt),
       (run_history s subs).1[k]? ≠ some (SubmitOutcome.ok resp na)) := by
  have hrun := run_history_all_failed subs s hs
  refine ⟨by rw [hrun], ?_, ?_⟩
  · intro k hk
    rw [hrun]
    simp [List.getElem?_eq_getElem, hk]
  · intro k resp na hcontra
    rw [hrun] at hcontra
    rw [List.getElem?_replicate] at hcontra
    split at hcontra
    · cases hcontra
    · cases hcontra

/-- Witness for C4: the two-submission history of the repository's own
incrementing-attempts test; both submissions fail and nothing is
stored. -/
theorem C4_no_attempt_numbering_witness :
    (run_history (⟨0, [], SessionStatus.in_progress, [⟨none⟩]⟩ : SessionRow)
       [⟨⟨("First attempt".data), 60, 0⟩, 11⟩,
        ⟨⟨("Second attempt".data), 60, 1⟩, 12⟩]).2.attempts = [] ∧
    (run_history (⟨0, [], SessionStatus.in_progress, [⟨none⟩]⟩ : SessionRow)
       [⟨⟨("First attempt".data), 60, 0⟩, 11⟩,
        ⟨⟨("Second attempt".data), 60, 1⟩, 12⟩]).1[1]? =
      some SubmitOutcome.failed ∧
    ∀ (resp : SubmitResponseM) (na : List Attempt),
      (run_history (⟨0, [], SessionStatus.in_progress, [⟨none⟩]⟩ : SessionRow)
        [⟨⟨("First attempt".data), 60, 0⟩, 11⟩,
         ⟨⟨("Second attempt".data), 60, 1⟩, 12⟩]).1[1]? ≠
        some (SubmitOutcome.ok resp na) :=
  have h := C4_no_attempt_numbering
    (⟨0, [], SessionStatus.in_progress, [⟨none⟩]⟩ : SessionRow)
    [⟨⟨("First attempt".data), 60, 0⟩, 11⟩,
     ⟨⟨("Second attempt".data), 60, 1⟩, 12⟩] rfl
  ⟨h.1, h.2.1 1 (by decide), fun resp na => h.2.2 1 resp na⟩

/-! ## Claim C9 -/

/-- Success inversion for the shared tail of `request_hint`: any success
reports exactly the level it was given and `MAX_HINTS - level` hints
remaining. -/
theorem hint_proceed_ok (s : SessionRow) (lv : Nat) (g : Option (List Char))
    (resp : HintResponseM) (exs2 : List Exercise)
    (h : hint_proceed s lv g = HintOutcome.ok resp exs2) :
    resp.hint_level = lv ∧ resp.hints_remaining = MAX_HINTS - lv := by
  cases g with
  | none =>
    simp only [hint_proceed] at h
    split at h
    · simp at h
    · split at h
      · injection h with hR hE
        rw [← hR]
        exact ⟨rfl, rfl⟩
      · simp at h
  | some hh =>
    simp only [hint_proceed] at h
    split at h
    · split at h
      · injection h with hR hE
        rw [← hR]
        exact ⟨rfl, rfl⟩
      · simp at h
    · split at h
      · injection h with hR hE
        rw [← hR]
        exact ⟨rfl, rfl⟩
      · simp at h

/-- C9: with `hint_level` omitted on an in-progress session with a valid
current exercise, the level resolves to 1 + max(hints_used over the
exercise's attempts) — 1 when there are none; the request is rejected
with the all-hints-used error when the resolved level exceeds MAX_HINTS;
any success reports hints_remaining = MAX_HINTS - hint_level; and a fresh
exercise with no attempts and no stored hints yields hint_level 1 and
hints_remaining 2 while persisting the one generated hint. -/
theorem C9_hint_level_resolution (s : SessionRow) (genHint : Option (List Char))
    (hs : s.status = SessionStatus.in_progress)
    (hidx : s.current_exercise_index < s.exercises.length) :
    (∀ resp exs2, request_hint s none genHint = HintOutcome.ok resp exs2 →
       resp.hint_level = resolved_hint_level s ∧
       resp.hints_remaining = MAX_HINTS - resp.hint_level) ∧
    (MAX_HINTS < resolved_hint_level s →
       request_hint s none genHint =
         HintOutcome.rejected 400
           ("All hints have been used for this exercise".data)) ∧
    (s.attempts.filter (fun a => a.exercise_index == s.current_exercise_index) = [] →
     ((s.exercises.get? s.current_exercise_index).getD ⟨none⟩).hints.getD [] = [] →
     ∀ htext, genHint = some htext →
       request_hint s none genHint =
         HintOutcome.ok ⟨1, htext, MAX_HINTS - 1⟩
           (s.exercises.set s.current_exercise_index ⟨some [htext]⟩)) := by
  have hne : ¬ s.status = SessionStatus.completed := by
    rw [hs]; intro hc; cases hc
  have hlen : ¬ s.exercises.length ≤ s.current_exercise_index :=
    Nat.not_le.mpr hidx
  have hreq : request_hint s none genHint =
      (if MAX_HINTS < resolved_hint_level s then
        HintOutcome.rejected 400
          ("All hints have been used for this exercise".data)
       else hint_proceed s (resolved_hint_level s) genHint) := by
    unfold request_hint resolved_hint_level
    rw [if_neg hne, if_neg hlen]
  refine ⟨?_, ?_, ?_⟩
  · intro resp exs2 h
    rw [hreq] at h
    by_cases hov : MAX_HINTS < resolved_hint_level s
    · rw [if_pos hov] at h; cases h
    · rw [if_neg hov] at h
      obtain ⟨h1, h2⟩ := hint_proceed_ok s (resolved_hint_level s) genHint resp exs2 h
      exact ⟨h1, by rw [h1, h2]⟩
  · intro hov
    rw [hreq, if_pos hov]
  · intro hempty hhints htext hg
    have hres : resolved_hint_level s = 1 := by
      unfold resolved_hint_level
      rw [hempty]
      rfl
    have hov : ¬ MAX_HINTS < resolved_hint_level s := by
      rw [hres]; decide
    rw [hreq, if_neg hov, hres, hg]
    simp only [hint_proceed, hhints]
    rfl

/-- Witness for C9: the fresh-exercise scenario on a concrete session. -/
theorem C9_hint_level_resolution_witness :
    request_hint (⟨0, [], SessionStatus.in_progress, [⟨none⟩]⟩ : SessionRow)
        none (some ("Consider the key concepts.".data)) =
      HintOutcome.ok ⟨1, ("Consider the key concepts.".data), MAX_HINTS - 1⟩
        [⟨some [("Consider the key concepts.".data)]⟩] :=
  (C9_hint_level_resolution
      (⟨0, [], SessionStatus.in_progress, [⟨none⟩]⟩ : SessionRow)
      (some ("Consider the key concepts.".data)) rfl (by decide)).2.2
    rfl rfl ("Consider the key concepts.".data) rfl

/-! ## Claim C10 -/

/-- C10 (as stated by the claim, refuted): the session-update operation
accepts a status change from completed back to in_progress — there is no
transition guard. -/
theorem C10_counterexample :
    update_session (⟨2, [], SessionStatus.completed, none, some 50⟩ : SessionFull)
        (⟨none, some SessionStatus.in_progress, none⟩ : SessionUpdateRequest) 99 =
      UpdateOutcome.ok
        (⟨2, [], SessionStatus.in_progress, none, some 50⟩ : SessionFull) := by
  rfl

/-- C10 (amended): completed is terminal only against attempt and hint
mutations — submit and hint calls on a completed session are rejected
without mutation — while the session-update operation applies a provided
status verbatim with no transition guard, so it can set a completed
session back to in_progress. -/
theorem C10_completed_terminality (s : SessionRow) (sf : SessionFull)
    (req : AnswerSubmitRequest) (now now2 : Nat)
    (lv : Option Nat) (genHint : Option (List Char))
    (hrow : s.status = SessionStatus.completed) :
    (submit_answer s req now =
       SubmitOutcome.rejected 400
         ("Cannot submit answer for completed session".data) ∧
     attemptsAfter s (submit_answer s req now) = s.attempts) ∧
    (request_hint s lv genHint =
       HintOutcome.rejected 400
         ("Cannot request hint for completed session".data)) ∧
    (update_session sf ⟨none, some SessionStatus.in_progress, none⟩ now2 =
       UpdateOutcome.ok { sf with status := SessionStatus.in_progress }) := by
  have hsub : submit_answer s req now =
      SubmitOutcome.rejected 400
        ("Cannot submit answer for completed session".data) := by
    unfold submit_answer; rw [if_pos hrow]
  refine ⟨⟨hsub, by rw [hsub]; rfl⟩, ?_, ?_⟩
  · unfold request_hint; rw [if_pos hrow]
  · unfold update_session
    rfl

/-- Witness for C10: a concrete completed session for all three parts. -/
theorem C10_completed_terminality_witness :
    (submit_answer (⟨0, [], SessionStatus.completed, [⟨none⟩]⟩ : SessionRow)
        (⟨("Another long enough answer".data), 30, 1⟩ : AnswerSubmitRequest) 5 =
       SubmitOutcome.rejected 400
         ("Cannot submit answer for completed session".data) ∧
     attemptsAfter (⟨0, [], SessionStatus.completed, [⟨none⟩]⟩ : SessionRow)
       (submit_answer (⟨0, [], SessionStatus.completed, [⟨none⟩]⟩ : SessionRow)
         (⟨("Another long enough answer".data), 30, 1⟩ : AnswerSubmitRequest)
         5) = []) ∧
    (request_hint (⟨0, [], SessionStatus.completed, [⟨none⟩]⟩ : SessionRow)
        none none =
       HintOutcome.rejected 400
         ("Cannot request hint for completed session".data)) ∧
    (update_session (⟨1, [], SessionStatus.completed, some 4, some 77⟩ : SessionFull)
        (⟨none, some SessionStatus.in_progress, none⟩ : SessionUpdateRequest) 88 =
       UpdateOutcome.ok
         (⟨1, [], SessionStatus.in_progress, some 4, some 77⟩ : SessionFull)) :=
  C10_completed_terminality
    (⟨0, [], SessionStatus.completed, [⟨none⟩]⟩ : SessionRow)
    (⟨1, [], SessionStatus.completed, some 4, some 77⟩ : SessionFull)
    (⟨("Another long enough answer".data), 30, 1⟩ : AnswerSubmitRequest)
    5 88 none none rfl

/-! ## Claim C5 -/

/-- C5 (as stated by the claim, refuted at hint 0): a rate-limit failure
whose explicit retry-after hint is 0 seconds is falsy under Python's
`if retry_after:` test, so the wait before the next attempt is the
computed backoff (here 2 seconds with jitter draw 1), not the hinted 0. -/
theorem C5_counterexample :
    run_with_retry 1 (calls_hint0 7) (fun _ => 1) = RetryResult.ok 7 2 [2] ∧
    run_with_retry 1 (calls_hint0 7) (fun _ => 1) ≠ RetryResult.ok 7 2 [0] := by
  have hc1 : calls_hint0 7 1 = CallOutcome.rateLimit (some 0) := rfl
  have hc2 : calls_hint0 7 2 = CallOutcome.success 7 := rfl
  have h : run_with_retry 1 (calls_hint0 7) (fun _ => 1) = RetryResult.ok 7 2 [2] := by
    unfold run_with_retry
    norm_num [retry_from, should_retry, hc1, hc2, exponential_backoff_with_jitter]
  refine ⟨h, ?_⟩
  rw [h]
  intro hcontra
  injection hcontra with h1 h2 h3
  rw [List.cons.injEq] at h3
  exact absurd h3.1 (by norm_num)

/-- C5 (amended): a nonzero retry-after hint of N seconds on a retried
rate-limit failure is used verbatim as the wait; and in the scenario —
maxRetries 2, rate-limit failures hinting 30 seconds on attempts 1 and 2,
success on attempt 3 — exactly 3 calls are made, both waits equal 30,
and the call's value is returned, for every jitter stream. -/
theorem C5_retry_after_hint (attempt max_retries : Nat) (r u : ℚ) (v : Nat)
    (jitter : Nat → ℚ)
    (hle : attempt ≤ max_retries) (hr : r ≠ 0) :
    should_retry (CallOutcome.rateLimit (some r)) attempt max_retries u =
      (true, r) ∧
    run_with_retry 2 (calls_hint30 v) jitter = RetryResult.ok v 3 [30, 30] := by
  constructor
  · unfold should_retry
    rw [if_neg (Nat.not_lt.mpr hle)]
    simp only [if_neg hr]
  · have hc1 : calls_hint30 v 1 = CallOutcome.rateLimit (some 30) := rfl
    have hc2 : calls_hint30 v 2 = CallOutcome.rateLimit (some 30) := rfl
    have hc3 : calls_hint30 v 3 = CallOutcome.success v := rfl
    unfold run_with_retry
    norm_num [retry_from, should_retry, hc1, hc2, hc3]

/-- Witness for C5: the hint 30, attempt 1 of 2, jitter draw 1. -/
theorem C5_retry_after_hint_witness :
    should_retry (CallOutcome.rateLimit (some 30)) 1 2 1 = (true, 30) ∧
    run_with_retry 2 (calls_hint30 7) (fun _ => 1) = RetryResult.ok 7 3 [30, 30] :=
  C5_retry_after_hint 1 2 30 1 7 (fun _ => 1) (by decide) (by norm_num)

/-! ## Claim C6 -/

/-- C6: the computed backoff delay is `min(base * 2^(n-1), max) * u` for
the 1-indexed attempt n and jitter draw u; with base 1 and max 60 the
delay lies in [0.5, 1] for attempt 1, [1, 2] for attempt 2, [2, 4] for
attempt 3, and is never negative and never exceeds the max delay for any
attempt number. -/
theorem C6_backoff_bounds (n : Nat) (b m u : ℚ)
    (hn : 1 ≤ n) (hu1 : 1 / 2 ≤ u) (hu2 : u ≤ 1) :
    exponential_backoff_with_jitter n b m u = min (b * 2 ^ (n - 1)) m * u ∧
    (0 ≤ exponential_backoff_with_jitter n 1 60 u ∧
     exponential_backoff_with_jitter n 1 60 u ≤ 60) ∧
    (n = 1 → 1 / 2 ≤ exponential_backoff_with_jitter n 1 60 u ∧
             exponential_backoff_with_jitter n 1 60 u ≤ 1) ∧
    (n = 2 → 1 ≤ exponential_backoff_with_jitter n 1 60 u ∧
             exponential_backoff_with_jitter n 1 60 u ≤ 2) ∧
    (n = 3 → 2 ≤ exponential_backoff_with_jitter n 1 60 u ∧
             exponential_backoff_with_jitter n 1 60 u ≤ 4) := by
  have hu0 : (0 : ℚ) ≤ u := le_trans (by norm_num) hu1
  refine ⟨rfl, ?_, ?_, ?_, ?_⟩
  · unfold exponential_backoff_with_jitter
    have hmin0 : (0 : ℚ) ≤ min ((1 : ℚ) * 2 ^ (n - 1)) 60 :=
      le_min (by positivity) (by norm_num)
    have hmin60 : min ((1 : ℚ) * 2 ^ (n - 1)) 60 ≤ 60 := min_le_right _ _
    constructor
    · exact mul_nonneg hmin0 hu0
    · calc min ((1 : ℚ) * 2 ^ (n - 1)) 60 * u
          ≤ min ((1 : ℚ) * 2 ^ (n - 1)) 60 * 1 := by
            exact mul_le_mul_of_nonneg_left hu2 hmin0
        _ = min ((1 : ℚ) * 2 ^ (n - 1)) 60 := mul_one _
        _ ≤ 60 := hmin60
  · rintro rfl
    unfold exponential_backoff_with_jitter
    norm_num
    constructor <;> linarith
  · rintro rfl
    unfold exponential_backoff_with_jitter
    norm_num
    constructor <;> linarith
  · rintro rfl
    unfold exponential_backoff_with_jitter
    norm_num
    constructor <;> linarith

/-- Witness for C6: attempt 1 with jitter draw 1/2. -/
theorem C6_backoff_bounds_witness :
    exponential_backoff_with_jitter 1 1 60 (1 / 2) =
      min ((1 : ℚ) * 2 ^ (1 - 1)) 60 * (1 / 2) ∧
    (0 ≤ exponential_backoff_with_jitter 1 1 60 ((1 : ℚ) / 2) ∧
     exponential_backoff_with_jitter 1 1 60 ((1 : ℚ) / 2) ≤ 60) ∧
    (1 / 2 ≤ exponential_backoff_with_jitter 1 1 60 ((1 : ℚ) / 2) ∧
     exponential_backoff_with_jitter 1 1 60 ((1 : ℚ) / 2) ≤ 1) := by
  obtain ⟨h1, h2, h3, _, _⟩ :=
    C6_backoff_bounds 1 1 60 (1 / 2) (by decide) (by norm_num) (by norm_num)
  exact ⟨h1, h2, h3 rfl⟩
